import Mathlib

/-!
Shallow embedding of the AI gateway core of `tp-edit-nest`
(`src/modules/ai/ai.controller.ts`, `src/modules/ai/models.enum.ts`):
parameter normalization, provider registry and credential resolution,
the upstream-error classification chain, and the synchronous and
streaming generation executors.

JavaScript numbers are modelled as exact rationals plus the three
non-finite values; JavaScript strings as Lean strings; `undefined`
as `Option.none`.
-/

namespace TpEditNest

/-- Does the character list start with the given pattern? -/
def startsWithChars : List Char → List Char → Bool
  | _, [] => true
  | [], _ :: _ => false
  | a :: as, b :: bs => a == b && startsWithChars as bs

/-- Does the character list contain the pattern as a contiguous run? -/
def containsChars (pat : List Char) : List Char → Bool
  | [] => pat.isEmpty
  | c :: cs => startsWithChars (c :: cs) pat || containsChars pat cs

/-- JS `hay.includes(needle)`: substring containment. -/
def strIncludes (hay needle : String) : Bool :=
  containsChars needle.data hay.data

def isWs (c : Char) : Bool := c.isWhitespace

/-- Character-list version of JS `String.prototype.trim`. -/
def trimChars (l : List Char) : List Char :=
  ((l.dropWhile isWs).reverse.dropWhile isWs).reverse

/-- JS `s.trim()`. -/
def jsTrim (s : String) : String := String.mk (trimChars s.data)

/-- JS `a || b` on a possibly-undefined string `a`
(`undefined` and the empty string are falsy). -/
def jsOrStr (a : Option String) (b : String) : String :=
  match a with
  | some s => if s.isEmpty then b else s
  | none => b

/-- JS truthiness of a possibly-undefined string. -/
def jsTruthy (a : Option String) : Bool :=
  match a with
  | some s => !s.isEmpty
  | none => false

/-- The three supported providers (`type ProviderId` in the source). -/
inductive ProviderId where
  | openai
  | deepseek
  | gemini
deriving DecidableEq, Repr

/-- Lookup `this.providers[payload.provider]`: only the three known
string keys resolve to a provider entry. -/
def parseProviderId (s : String) : Option ProviderId :=
  if s = "openai" then some .openai
  else if s = "deepseek" then some .deepseek
  else if s = "gemini" then some .gemini
  else none

def providerIdString : ProviderId → String
  | .openai => "openai"
  | .deepseek => "deepseek"
  | .gemini => "gemini"

/-- The `label` field of each provider entry. -/
def providerLabel : ProviderId → String
  | .openai => "OpenAI"
  | .deepseek => "DeepSeek"
  | .gemini => "Google Gemini"

/-- The environment key read by each provider's `create` factory, and
named in the 403/401 classification branches (`envVarName`). -/
def credentialEnvKey : ProviderId → String
  | .openai => "OPENAI_API_KEY"
  | .deepseek => "DEEPSEEK_API_KEY"
  | .gemini => "GOOGLE_GENERATIVE_AI_API_KEY"

/-- Function `getModelsByProvider` from `models.enum.ts`: `Object.values` of the
per-provider model enum, in declaration order. -/
def getModelsByProvider : ProviderId → List String
  | .openai => ["gpt-4o", "gpt-4o-mini", "gpt-4", "gpt-3.5-turbo"]
  | .deepseek => ["deepseek-v2-chat", "deepseek-chat", "deepseek-coder"]
  | .gemini => ["gemini-3-flash-preview", "gemini-2.5-pro", "gemini-2.5-flash"]

/-- The message of the `InternalServerErrorException` thrown by each
provider entry's `create` factory when its credential is missing. -/
def missingKeyMsg : ProviderId → String
  | .openai => "环境变量 OPENAI_API_KEY 未配置，无法调用 OpenAI 模型"
  | .deepseek =>
      "环境变量 DEEPSEEK_API_KEY 未配置，无法调用 DeepSeek 模型。请访问 https://platform.deepseek.com/ 获取 API Key"
  | .gemini =>
      "环境变量 GOOGLE_GENERATIVE_AI_API_KEY 未配置，无法调用 Gemini 模型。请访问 https://aistudio.google.com/app/apikey 获取 API Key"

/-- A JavaScript number: a finite value (exact rational) or one of the
non-finite values. -/
inductive JSNum where
  | num (q : ℚ)
  | nan
  | posInf
  | negInf
deriving DecidableEq

/-- JS `isNaN(x) || !isFinite(x)`. -/
def JSNum.nonFinite : JSNum → Bool
  | .num _ => false
  | _ => true

/-- The request body (`GenerateTextDto`) as seen by the service layer:
fields the code guards with `?.`/`undefined` checks are `Option`s. -/
structure GenerateTextPayload where
  provider : String
  model : String
  prompt : Option String
  system : Option String
  temperature : Option JSNum
  maxTokens : Option JSNum
  stream : Bool := false
deriving DecidableEq

/-- The canonical request produced by `validateAndNormalizeParams`. -/
structure CanonicalParams where
  providerId : ProviderId
  model : String
  prompt : String
  system : Option String
  temperature : Option ℚ
  maxTokens : Option ℤ
deriving DecidableEq

/-- The error taxonomy of the gateway (the spec's ClassifiedError
categories; each corresponds to one branch of the service's error
handling). -/
inductive ErrorCategory where
  | badRequest
  | insufficientBalance
  | rateLimited
  | forbiddenLeaked
  | forbiddenOther
  | unauthorized
  | internal
deriving DecidableEq, Repr

/-- A classified, user-facing error. -/
structure ClassifiedError where
  category : ErrorCategory
  message : String
  retryAfterSeconds : Option ℤ := none
deriving DecidableEq

def mkBadRequest (msg : String) : ClassifiedError :=
  { category := .badRequest, message := msg }

def mkInternal (msg : String) : ClassifiedError :=
  { category := .internal, message := msg }

/-- The BadRequest message listing a provider's valid models
(thrown when the model does not belong to the provider). -/
def modelNotValidMsg (model : String) (pid : ProviderId) : String :=
  "模型 \"" ++ model ++ "\" 不属于提供方 \"" ++ providerIdString pid ++ "\"。" ++
    "可用模型: " ++ String.intercalate ", " (getModelsByProvider pid)

/-- JS `!payload.x || !payload.x.trim()` for an optional string field. -/
def blankOpt (o : Option String) : Bool :=
  match o with
  | none => true
  | some s => jsTrim s == ""

/-- Normalization of `maxTokens` (source lines 473-488): reject
non-finite values, floor the absolute value, then range-check. -/
def normalizeMaxTokens (o : Option JSNum) : Except ClassifiedError (Option ℤ) :=
  match o with
  | none => .ok none
  | some v =>
    match v with
    | .num q =>
      let m : ℤ := ⌊|q|⌋
      if m < 1 then .error (mkBadRequest "maxTokens 必须大于 0")
      else if m > 1000000 then .error (mkBadRequest "maxTokens 不能超过 1000000")
      else .ok (some m)
    | _ => .error (mkBadRequest "maxTokens 必须是有效的数字")

/-- Normalization of `temperature` (source lines 490-498): reject
non-finite values, clamp into [0, 2] via `Math.max(0, Math.min(2, t))`. -/
def normalizeTemperature (o : Option JSNum) : Except ClassifiedError (Option ℚ) :=
  match o with
  | none => .ok none
  | some v =>
    match v with
    | .num q => .ok (some (max 0 (min 2 q)))
    | _ => .error (mkBadRequest "temperature 必须是有效的数字")

/-- Method `AiService.validateAndNormalizeParams`: provider lookup, model
non-emptiness, model-set membership, prompt/system presence, then
numeric normalization; failures are BadRequest. -/
def validateAndNormalizeParams (p : GenerateTextPayload) :
    Except ClassifiedError CanonicalParams :=
  match parseProviderId p.provider with
  | none => .error (mkBadRequest ("不支持的模型提供方: " ++ p.provider))
  | some providerId =>
    if jsTrim p.model == "" then
      .error (mkBadRequest "模型名称不能为空")
    else if !(getModelsByProvider providerId).contains p.model then
      .error (mkBadRequest (modelNotValidMsg p.model providerId))
    else if blankOpt p.prompt && blankOpt p.system then
      .error (mkBadRequest "prompt 和 system 至少需要提供一个")
    else do
      let maxTokens ← normalizeMaxTokens p.maxTokens
      let temperature ← normalizeTemperature p.temperature
      .ok { providerId := providerId
            model := jsTrim p.model
            prompt := (p.prompt.map jsTrim).getD ""
            system := p.system.map jsTrim
            temperature := temperature
            maxTokens := maxTokens }

/-- Re-encode a canonical request as a request payload, for the
idempotence property. -/
def toPayload (c : CanonicalParams) : GenerateTextPayload :=
  { provider := providerIdString c.providerId
    model := c.model
    prompt := some c.prompt
    system := c.system
    temperature := c.temperature.map .num
    maxTokens := c.maxTokens.map (fun z => .num (z : ℚ)) }

/-! ### Error classification (`generateText` catch block, lines 552-680) -/

/-- The shape of a raw upstream error, with exactly the fields the
catch block inspects (`status`, `statusCode`, `message`, `parameter`,
`data.error.status`, `data.error.message`) plus its `toString()`
rendering. Absent (`undefined`) fields are `none`; `parameter` records
the truthiness of `error.parameter`. -/
structure RawError where
  status : Option Nat := none
  statusCode : Option Nat := none
  message : Option String := none
  parameter : Bool := false
  dataErrorStatus : Option String := none
  dataErrorMessage : Option String := none
  toStr : String := ""
deriving DecidableEq

/-- JS `error?.message?.includes(s)` (undefined message is falsy). -/
def msgIncludes (e : RawError) (s : String) : Bool :=
  match e.message with
  | some m => strIncludes m s
  | none => false

/-- JS `error?.status === n || error?.statusCode === n`. -/
def statusIs (e : RawError) (n : Nat) : Bool :=
  e.status == some n || e.statusCode == some n

/-- Branch 1 guard: parameter/validation-shaped error. -/
def isParamError (e : RawError) : Bool :=
  e.parameter || msgIncludes e "Invalid argument" || msgIncludes e "must be"

/-- Branch 2 guard: 402 / balance exhaustion. -/
def isBalanceError (e : RawError) : Bool :=
  statusIs e 402 || msgIncludes e "Insufficient Balance" || msgIncludes e "余额不足"

/-- Branch 3 guard: 429 / quota / rate limit. -/
def isRateLimitError (e : RawError) : Bool :=
  statusIs e 429 || e.dataErrorStatus == some "RESOURCE_EXHAUSTED" ||
    msgIncludes e "quota" || msgIncludes e "rate limit" ||
    msgIncludes e "Rate limit" || msgIncludes e "exceeded your current quota"

/-- Branch 4 guard: 403 / permission denied / leaked key. -/
def isForbiddenError (e : RawError) : Bool :=
  statusIs e 403 || e.dataErrorStatus == some "PERMISSION_DENIED" ||
    msgIncludes e "leaked" || msgIncludes e "reported as leaked"

/-- Branch 5 guard: 401 / authentication failure phrasing. -/
def isUnauthorizedError (e : RawError) : Bool :=
  statusIs e 401 || msgIncludes e "Unauthorized" ||
    msgIncludes e "Invalid" || msgIncludes e "API key"

/-- JS `error?.data?.error?.message || error?.message || ''`. -/
def combinedMessage (e : RawError) : String :=
  jsOrStr e.dataErrorMessage (jsOrStr e.message "")

def isDigitOrDot (c : Char) : Bool := c.isDigit || c == '.'

/-- Case-insensitive character-list comparison of a pattern against the
start of a list. -/
def ciStartsWith : List Char → List Char → Bool
  | [], _ => true
  | _ :: _, [] => false
  | p :: ps, c :: cs => p.toLower == c.toLower && ciStartsWith ps cs

/-- Attempt to match the regex `/Please retry in ([\d.]+)s/i` at the
head of the list, returning the captured digits-and-dots token. -/
def matchRetryAt (cs : List Char) : Option (List Char) :=
  let pat := "please retry in ".data
  if ciStartsWith pat cs then
    let rest := cs.drop pat.length
    let tok := rest.takeWhile isDigitOrDot
    match rest.dropWhile isDigitOrDot with
    | 's' :: _ => if tok.isEmpty then none else some tok
    | 'S' :: _ => if tok.isEmpty then none else some tok
    | _ => none
  else none

/-- Leftmost match of `/Please retry in ([\d.]+)s/i`, as JS
`message.match(...)` computes it. -/
def findRetryToken : List Char → Option (List Char)
  | [] => none
  | c :: cs =>
    match matchRetryAt (c :: cs) with
    | some tok => some tok
    | none => findRetryToken cs

def digitsToNat (l : List Char) : Nat :=
  l.foldl (fun acc c => 10 * acc + (c.toNat - '0'.toNat)) 0

/-- JS `parseFloat` restricted to a digits-and-dots token: an integer
part, optionally a dot and a fractional part, ignoring any trailing
garbage; `none` models `NaN` (no leading digits and no fractional
digits). -/
def parseFloatQ (l : List Char) : Option ℚ :=
  let intPart := l.takeWhile Char.isDigit
  match l.dropWhile Char.isDigit with
  | '.' :: r =>
    let fracPart := r.takeWhile Char.isDigit
    if intPart.isEmpty && fracPart.isEmpty then none
    else some ((digitsToNat intPart : ℚ) +
      (digitsToNat fracPart : ℚ) / (10 : ℚ) ^ fracPart.length)
  | _ =>
    if intPart.isEmpty then none else some (digitsToNat intPart : ℚ)

/-- The retry-delay hint of the 429 branch:
`Math.ceil(parseFloat(match[1]))` when the retry phrase matched, absent
otherwise (a `NaN` parse is falsy exactly like the absent case and is
modelled as absent). -/
def retryDelayOf (em : String) : Option ℤ :=
  (findRetryToken em.data).bind fun tok => (parseFloatQ tok).map Int.ceil

/-- Branch 2 message (fixed text). -/
def balanceMsg : String :=
  "账户余额不足。请访问 https://platform.deepseek.com/ 检查账户余额并充值。" ++
    "\n提示：新注册账户可能需要先完成账户验证或激活免费额度。"

/-- Branch 3 message: provider-specialized guidance, appending the
retry hint only when the delay is truthy (non-null, non-zero). -/
def rateLimitMsg (pid : ProviderId) (em : String) (retry : Option ℤ) : String :=
  let base := "API 配额已用完或达到速率限制。"
  let withRetry := fun (m : String) (line : String) =>
    match retry with
    | some n => if n == 0 then m else m ++ line ++ toString n ++ " 秒后重试"
    | none => m
  match pid with
  | .gemini =>
    let m1 := base ++ "\n\nGoogle Gemini 免费层配额已用完。"
    let m2 := if strIncludes em "gemini-3-pro" then
        m1 ++ "\n注意：gemini-3-pro 是预览模型，免费层配额有限。"
      else m1
    let m3 := m2 ++ "\n\n解决方案：" ++ "\n1. 等待配额重置（通常每天重置）" ++
      "\n2. 查看配额使用情况：https://ai.dev/usage?tab=rate-limit" ++
      "\n3. 了解配额限制：https://ai.google.dev/gemini-api/docs/rate-limits"
    withRetry m3 "\n4. 建议等待 "
  | .deepseek =>
    withRetry (base ++ "\n\n请访问 https://platform.deepseek.com/ 检查账户配额和速率限制。")
      "\n建议等待 "
  | .openai =>
    withRetry (base ++ "\n\n请检查账户配额和速率限制设置。") "\n建议等待 "

/-- Branch 4 message when leak phrasing is present. -/
def leakedMsg (pid : ProviderId) : String :=
  "API Key 已被标记为泄露。请立即更换新的 API Key。\n" ++
    "环境变量: " ++ credentialEnvKey pid ++ "\n" ++
    "Google Gemini: 请访问 https://aistudio.google.com/app/apikey 生成新的 API Key"

/-- Branch 4 message without leak phrasing. -/
def forbiddenMsg (pid : ProviderId) : String :=
  "API Key 权限被拒绝（403）。请检查环境变量 " ++ credentialEnvKey pid ++
    " 是否有足够的权限。"

/-- Branch 5 message. -/
def unauthorizedMsg (pid : ProviderId) : String :=
  "API Key 认证失败。请检查环境变量 " ++ credentialEnvKey pid ++ " 是否正确配置。"

/-- Branch 6 (fallback) message. -/
def internalCallMsg (pid : ProviderId) (e : RawError) : String :=
  "调用 " ++ providerLabel pid ++ " 模型失败: " ++
    jsOrStr e.message (jsOrStr (some e.toStr) "未知错误")

/-- Branch 1 message. -/
def paramErrMsg (e : RawError) : String :=
  "参数错误: " ++ jsOrStr e.message (jsOrStr (some e.toStr) "未知参数错误")

/-- The priority-ordered classification chain of the `generateText`
catch block: parameter error, 402/balance, 429/rate-limit,
403/permission, 401/auth, fallback Internal; first match wins. Each
branch is tagged with the spec's category for its exception. -/
def classifyError (pid : ProviderId) (e : RawError) : ClassifiedError :=
  if isParamError e then mkBadRequest (paramErrMsg e)
  else if isBalanceError e then
    { category := .insufficientBalance, message := balanceMsg }
  else if isRateLimitError e then
    let em := combinedMessage e
    let retry := retryDelayOf em
    { category := .rateLimited, message := rateLimitMsg pid em retry,
      retryAfterSeconds := retry }
  else if isForbiddenError e then
    if strIncludes (combinedMessage e) "leaked" then
      { category := .forbiddenLeaked, message := leakedMsg pid }
    else
      { category := .forbiddenOther, message := forbiddenMsg pid }
  else if isUnauthorizedError e then
    { category := .unauthorized, message := unauthorizedMsg pid }
  else
    mkInternal (internalCallMsg pid e)

/-! ### Provider creation and the generation executors -/

/-- A provider entry's `create` factory: reads the credential from the
process environment and fails with the Internal configuration error
when it is absent or empty (JS falsy). -/
def createModelProvider (env : String → Option String) (pid : ProviderId) :
    Except ClassifiedError Unit :=
  if jsTruthy (env (credentialEnvKey pid)) then .ok ()
  else .error (mkInternal (missingKeyMsg pid))

/-- The provider-call parameter object built by the executors. A JS
object with dynamic keys: `none` models an absent key. The sync path
fills `maxOutputTokens`; the stream path fills `maxTokens`. -/
structure RequestParams where
  providerBinding : ProviderId
  model : String
  prompt : String
  system : Option String
  temperature : Option ℚ
  maxOutputTokens : Option ℤ
  maxTokens : Option ℤ
deriving DecidableEq

/-- JS `if (system)` truthiness for the optional canonical system field. -/
def truthySystem (o : Option String) : Option String :=
  match o with
  | some s => if s.isEmpty then none else some s
  | none => none

/-- The request parameters of the synchronous executor
(`generateText`, lines 525-541): conditional `system` and
`temperature`, token limit under the `maxOutputTokens` key. -/
def buildSyncParams (c : CanonicalParams) : RequestParams :=
  { providerBinding := c.providerId
    model := c.model
    prompt := c.prompt
    system := truthySystem c.system
    temperature := c.temperature
    maxOutputTokens := c.maxTokens
    maxTokens := none }

/-- The request parameters of the streaming executor
(`generateTextStream`, lines 702-718): conditional `system` and
`temperature`, token limit under the `maxTokens` key. -/
def buildStreamParams (c : CanonicalParams) : RequestParams :=
  { providerBinding := c.providerId
    model := c.model
    prompt := c.prompt
    system := truthySystem c.system
    temperature := c.temperature
    maxOutputTokens := none
    maxTokens := c.maxTokens }

/-- What the non-streaming upstream call returns on success. -/
structure GenerationResult where
  provider : ProviderId
  model : String
  text : String
  finishReason : Option String
deriving DecidableEq

/-- Method `AiService.generateText`: normalize, create the provider (missing
credential surfaces here, outside the try block), invoke upstream,
classify any upstream error. The upstream call is a parameter. -/
def generateTextModel (env : String → Option String)
    (upstream : RequestParams → Except RawError (String × Option String))
    (p : GenerateTextPayload) : Except ClassifiedError GenerationResult := do
  let canon ← validateAndNormalizeParams p
  let _ ← createModelProvider env canon.providerId
  match upstream (buildSyncParams canon) with
  | .ok (text, fr) =>
    .ok { provider := canon.providerId, model := canon.model,
          text := text, finishReason := fr }
  | .error e => .error (classifyError canon.providerId e)

/-! ### The streaming executor's fragment loop (lines 720-752) -/

/-- One SSE fragment emitted by the stream Observable: a content chunk
(serialized as a JSON object with a `content` field), the terminal
`[DONE]` sentinel, or an error payload (a JSON object with an `error`
field). -/
inductive Fragment where
  | content (s : String)
  | done
  | errorFrag (msg : String)
deriving DecidableEq

/-- How the upstream text stream ends: normal completion, or an error
raised when the executor pulls past the produced chunks. -/
inductive UpOutcome where
  | completed
  | errored (msg : String)
deriving DecidableEq

/-- The post-loop sentinel step: one more `subscriber.closed` check,
then `[DONE]`. -/
def finishDoneT (closed : Nat → Bool) (t : Nat) : List (Nat × Fragment) :=
  if closed t then [] else [(t, .done)]

/-- The fragment-production loop of the stream Observable, annotated
with the index of the `subscriber.closed` check that authorized each
emission. Per chunk: check cancellation, break if closed, else emit;
after the chunks: on completion (or after a break) one more check
guards the `[DONE]` sentinel; on an upstream error one check guards the
single error fragment. -/
def streamRunFrom (closed : Nat → Bool) : Nat → List String → UpOutcome →
    List (Nat × Fragment)
  | t, c :: rest, out =>
    if closed t then finishDoneT closed (t + 1)
    else (t, .content c) :: streamRunFrom closed (t + 1) rest out
  | t, [], .completed => finishDoneT closed t
  | t, [], .errored msg =>
    if closed t then [] else [(t, .errorFrag msg)]

/-- The timed fragment sequence of one streaming request. -/
def streamRunT (closed : Nat → Bool) (chunks : List String) (out : UpOutcome) :
    List (Nat × Fragment) :=
  streamRunFrom closed 0 chunks out

/-- The fragment sequence of one streaming request, as delivered. -/
def streamRun (closed : Nat → Bool) (chunks : List String) (out : UpOutcome) :
    List Fragment :=
  (streamRunT closed chunks out).map Prod.snd

/-- Method `AiService.generateTextStream`: normalize and create the provider
synchronously (both throw to the caller), then run the fragment loop
against the upstream stream. -/
def generateTextStreamModel (env : String → Option String)
    (p : GenerateTextPayload) (closed : Nat → Bool) (chunks : List String)
    (out : UpOutcome) : Except ClassifiedError (List (Nat × Fragment)) := do
  let canon ← validateAndNormalizeParams p
  let _ ← createModelProvider env canon.providerId
  .ok (streamRunT closed chunks out)

/-! ### Supporting lemmas -/

instance {ε α : Type} [DecidableEq ε] [DecidableEq α] : DecidableEq (Except ε α) :=
  fun x y =>
    match x, y with
    | .error a, .error b =>
      if h : a = b then .isTrue (by rw [h]) else .isFalse (fun hh => h (Except.error.inj hh))
    | .ok a, .ok b =>
      if h : a = b then .isTrue (by rw [h]) else .isFalse (fun hh => h (Except.ok.inj hh))
    | .error _, .ok _ => .isFalse Except.noConfusion
    | .ok _, .error _ => .isFalse Except.noConfusion

/-- Inversion for a successful `maxTokens` normalization. -/
lemma normalizeMaxTokens_ok {o : Option JSNum} {mt : Option ℤ}
    (h : normalizeMaxTokens o = .ok mt) :
    (o = none ∧ mt = none) ∨
      ∃ q : ℚ, o = some (.num q) ∧ mt = some ⌊|q|⌋ ∧ 1 ≤ ⌊|q|⌋ ∧ ⌊|q|⌋ ≤ 1000000 := by
  match o with
  | none =>
    left
    simp only [normalizeMaxTokens] at h
    exact ⟨rfl, (Except.ok.inj h).symm⟩
  | some (.num q) =>
    right
    refine ⟨q, rfl, ?_⟩
    simp only [normalizeMaxTokens] at h
    split at h
    · exact absurd h (by simp)
    · split at h
      · exact absurd h (by simp)
      · refine ⟨(Except.ok.inj h).symm, by omega, by omega⟩
  | some .nan => exact absurd h (by simp [normalizeMaxTokens])
  | some .posInf => exact absurd h (by simp [normalizeMaxTokens])
  | some .negInf => exact absurd h (by simp [normalizeMaxTokens])

/-- Inversion for a successful `temperature` normalization. -/
lemma normalizeTemperature_ok {o : Option JSNum} {t : Option ℚ}
    (h : normalizeTemperature o = .ok t) :
    (o = none ∧ t = none) ∨
      ∃ q : ℚ, o = some (.num q) ∧ t = some (max 0 (min 2 q)) := by
  match o with
  | none =>
    left
    simp only [normalizeTemperature] at h
    exact ⟨rfl, (Except.ok.inj h).symm⟩
  | some (.num q) =>
    right
    simp only [normalizeTemperature] at h
    exact ⟨q, rfl, (Except.ok.inj h).symm⟩
  | some .nan => exact absurd h (by simp [normalizeTemperature])
  | some .posInf => exact absurd h (by simp [normalizeTemperature])
  | some .negInf => exact absurd h (by simp [normalizeTemperature])

/-- Inversion for a successful run of `validateAndNormalizeParams`. -/
lemma validate_ok_inv {p : GenerateTextPayload} {c : CanonicalParams}
    (h : validateAndNormalizeParams p = .ok c) :
    ∃ pid, parseProviderId p.provider = some pid ∧
      (jsTrim p.model == "") = false ∧
      (getModelsByProvider pid).contains p.model = true ∧
      (blankOpt p.prompt && blankOpt p.system) = false ∧
      normalizeMaxTokens p.maxTokens = .ok c.maxTokens ∧
      normalizeTemperature p.temperature = .ok c.temperature ∧
      c.providerId = pid ∧ c.model = jsTrim p.model ∧
      c.prompt = (p.prompt.map jsTrim).getD "" ∧
      c.system = p.system.map jsTrim := by
  unfold validateAndNormalizeParams at h
  cases hpp : parseProviderId p.provider with
  | none => rw [hpp] at h; exact absurd h (by simp)
  | some pid =>
    simp only [hpp] at h
    refine ⟨pid, rfl, ?_⟩
    split at h
    · exact absurd h (by simp)
    · split at h
      · exact absurd h (by simp)
      · split at h
        · exact absurd h (by simp)
        · cases hmt : normalizeMaxTokens p.maxTokens with
          | error e => rw [hmt] at h; exact absurd h (by simp [Bind.bind, Except.bind])
          | ok mt =>
            rw [hmt] at h
            cases ht : normalizeTemperature p.temperature with
            | error e => rw [ht] at h; exact absurd h (by simp [Bind.bind, Except.bind])
            | ok t =>
              rw [ht] at h
              simp only [Bind.bind, Except.bind] at h
              have hc := Except.ok.inj h
              subst hc
              simp_all

/-- Forward evaluation of `validateAndNormalizeParams` when every
check passes. -/
lemma validate_eval {p : GenerateTextPayload} {pid : ProviderId}
    (hpp : parseProviderId p.provider = some pid)
    (hm : (jsTrim p.model == "") = false)
    (hcontains : (getModelsByProvider pid).contains p.model = true)
    (hps : (blankOpt p.prompt && blankOpt p.system) = false)
    {mt : Option ℤ} (hmt : normalizeMaxTokens p.maxTokens = .ok mt)
    {t : Option ℚ} (ht : normalizeTemperature p.temperature = .ok t) :
    validateAndNormalizeParams p =
      .ok { providerId := pid, model := jsTrim p.model,
            prompt := (p.prompt.map jsTrim).getD "",
            system := p.system.map jsTrim, temperature := t, maxTokens := mt } := by
  unfold validateAndNormalizeParams
  simp only [hpp, hm, hcontains, hps, hmt, ht, Bind.bind, Except.bind,
    Bool.not_true, Bool.false_eq_true, if_false]

/-- The function `dropWhile` only exposes a head that fails the predicate. -/
lemma head_dropWhile_false (p : α → Bool) (l : List α) :
    ∀ a t, l.dropWhile p = a :: t → p a = false := by
  induction l with
  | nil => intro a t h; simp at h
  | cons b l ih =>
    intro a t h
    rw [List.dropWhile_cons] at h
    by_cases hb : p b = true
    · exact ih a t (by simpa [hb] using h)
    · have hb' : p b = false := by simpa using hb
      obtain ⟨rfl, -⟩ : b = a ∧ l = t := by simpa [hb'] using h
      exact hb'

/-- The function `dropWhile` fixes a list whose head (if any) fails the predicate. -/
lemma dropWhile_eq_self_of_head (p : α → Bool) (l : List α)
    (h : ∀ a t, l = a :: t → p a = false) : l.dropWhile p = l := by
  cases l with
  | nil => rfl
  | cons a t => rw [List.dropWhile_cons, h a t rfl]; simp

/-- Trimming via `trimChars` is idempotent. -/
lemma trimChars_idem (l : List Char) : trimChars (trimChars l) = trimChars l := by
  unfold trimChars
  set A := l.dropWhile isWs with hA
  set B := A.reverse.dropWhile isWs with hB
  have h2 : B.reverse.reverse.dropWhile isWs = B := by
    rw [List.reverse_reverse]
    rw [hB, dropWhile_eq_self_of_head isWs (A.reverse.dropWhile isWs)]
    intro a t h
    exact head_dropWhile_false isWs A.reverse a t h
  have h1 : B.reverse.dropWhile isWs = B.reverse := by
    apply dropWhile_eq_self_of_head
    intro a t h
    have hsplit : A.reverse.takeWhile isWs ++ B = A.reverse := by
      rw [hB]; exact List.takeWhile_append_dropWhile isWs A.reverse
    have hAeq : A = B.reverse ++ (A.reverse.takeWhile isWs).reverse := by
      have := congrArg List.reverse hsplit
      simpa [List.reverse_append] using this.symm
    rw [h] at hAeq
    exact head_dropWhile_false isWs l a (t ++ (A.reverse.takeWhile isWs).reverse)
      (by rw [← hA]; simpa using hAeq)
  rw [h1, h2]

/-- Trimming via `jsTrim` is idempotent. -/
lemma jsTrim_idem (s : String) : jsTrim (jsTrim s) = jsTrim s := by
  unfold jsTrim
  exact congrArg String.mk (trimChars_idem s.data)

/-- Substring containment is preserved by prepending. -/
lemma containsChars_append_right (pat a b : List Char)
    (h : containsChars pat b = true) : containsChars pat (a ++ b) = true := by
  induction a with
  | nil => simpa using h
  | cons x rest ih =>
    show (startsWithChars (x :: (rest ++ b)) pat || containsChars pat (rest ++ b)) = true
    rw [ih]
    simp

/-- String `includes` is preserved by prepending. -/
lemma strIncludes_append_right (a b m : String) (h : strIncludes b m = true) :
    strIncludes (a ++ b) m = true := by
  unfold strIncludes at *
  rw [String.data_append]
  exact containsChars_append_right m.data a.data b.data h

/-- Parsing with `parseProviderId` inverts `providerIdString`. -/
lemma parseProviderId_round (pid : ProviderId) :
    parseProviderId (providerIdString pid) = some pid := by
  cases pid <;> rfl

/-- Every valid model identifier is fixed by trimming. -/
lemma models_trim_fixed (pid : ProviderId) (m : String)
    (h : (getModelsByProvider pid).contains m = true) : jsTrim m = m := by
  have h' : m ∈ getModelsByProvider pid := by
    simpa [List.contains] using h
  cases pid <;>
    · simp only [getModelsByProvider, List.mem_cons, List.not_mem_nil, or_false] at h'
      rcases h' with rfl | rfl | rfl | rfl <;> decide

/-- The check `blankOpt` is invariant under trimming the field. -/
lemma blankOpt_map_jsTrim (o : Option String) :
    blankOpt (o.map jsTrim) = blankOpt o := by
  cases o with
  | none => rfl
  | some s => simp [blankOpt, jsTrim_idem]

/-- The check `blankOpt` of the canonical prompt agrees with the original. -/
lemma blankOpt_canonical_prompt (o : Option String) :
    blankOpt (some ((o.map jsTrim).getD "")) = blankOpt o := by
  cases o with
  | none => rfl
  | some s => simp [blankOpt, jsTrim_idem]

/-! ### Claims -/

/-- C4: for a request with `maxTokens` present, a non-finite value is
rejected with BadRequest; a finite value has its absolute value floored,
is rejected with a BadRequest naming the violated bound when the result
is outside [1, 1000000], and is otherwise accepted with the canonical
`maxTokens` equal to `floor(abs(input))` — so a negative input is
silently sign-flipped, not rejected; a request that passes full
normalization carries exactly that canonical value. -/
theorem claim_c4_maxTokens_normalization :
    ∀ q : ℚ,
      (⌊|q|⌋ < 1 →
        normalizeMaxTokens (some (.num q)) =
          .error (mkBadRequest "maxTokens 必须大于 0"))
    ∧ (1000000 < ⌊|q|⌋ →
        normalizeMaxTokens (some (.num q)) =
          .error (mkBadRequest "maxTokens 不能超过 1000000"))
    ∧ (1 ≤ ⌊|q|⌋ → ⌊|q|⌋ ≤ 1000000 →
        normalizeMaxTokens (some (.num q)) = .ok (some ⌊|q|⌋))
    ∧ (∀ v : JSNum, v.nonFinite = true →
        normalizeMaxTokens (some v) =
          .error (mkBadRequest "maxTokens 必须是有效的数字"))
    ∧ (∀ (p : GenerateTextPayload) (c : CanonicalParams),
        validateAndNormalizeParams p = .ok c → p.maxTokens = some (.num q) →
          c.maxTokens = some ⌊|q|⌋ ∧ 1 ≤ ⌊|q|⌋ ∧ ⌊|q|⌋ ≤ 1000000) := by
  intro q
  refine ⟨?_, ?_, ?_, ?_, ?_⟩
  · intro h
    simp only [normalizeMaxTokens]
    rw [if_pos h]
  · intro h
    simp only [normalizeMaxTokens]
    rw [if_neg (by omega), if_pos (by omega)]
  · intro h1 h2
    simp only [normalizeMaxTokens]
    rw [if_neg (by omega), if_neg (by omega)]
  · intro v hv
    cases v with
    | num _ => simp [JSNum.nonFinite] at hv
    | nan => rfl
    | posInf => rfl
    | negInf => rfl
  · intro p c hok hmt
    obtain ⟨pid, -, -, -, -, hmax, -, -⟩ := validate_ok_inv hok
    rw [hmt] at hmax
    rcases normalizeMaxTokens_ok hmax with ⟨hcontra, -⟩ | ⟨q', heq, hval, h1, h2⟩
    · exact absurd hcontra (by simp)
    · obtain rfl : q = q' := by
        have := Option.some.inj heq
        exact (JSNum.num.inj this)
      exact ⟨hval, h1, h2⟩

/-- C4 witness: `maxTokens = -5.5` is sign-flipped and floored to 5 and
accepted; `NaN` is rejected. -/
theorem claim_c4_witness :
    1 ≤ ⌊|(-5.5 : ℚ)|⌋ ∧ ⌊|(-5.5 : ℚ)|⌋ ≤ 1000000 ∧
      normalizeMaxTokens (some (.num (-5.5))) = .ok (some 5) ∧
      normalizeMaxTokens (some .nan) =
        .error (mkBadRequest "maxTokens 必须是有效的数字") := by
  have h5 : (⌊|(-5.5 : ℚ)|⌋ : ℤ) = 5 := by
    rw [show |(-5.5 : ℚ)| = 11 / 2 by norm_num]
    rw [Int.floor_eq_iff]
    norm_num
  refine ⟨by rw [h5]; norm_num, by rw [h5]; norm_num, ?_, ?_⟩
  · have h := (claim_c4_maxTokens_normalization (-5.5)).2.2.1
      (by rw [h5]; norm_num) (by rw [h5]; norm_num)
    rw [h5] at h
    exact h
  · exact (claim_c4_maxTokens_normalization 0).2.2.2.1 .nan rfl

/-- C5: for a request with a finite `temperature` present, the
canonical temperature is `max 0 (min 2 t)`: always within [0, 2],
unchanged when already in range, clamped to the nearest bound when out
of range; a non-finite temperature is rejected with BadRequest; and any
successfully normalized request has its canonical temperature (when
present) in [0, 2]. -/
theorem claim_c5_temperature_clamped :
    ∀ q : ℚ,
      normalizeTemperature (some (.num q)) = .ok (some (max 0 (min 2 q)))
    ∧ (0 ≤ max 0 (min 2 q) ∧ max 0 (min 2 q) ≤ 2)
    ∧ (0 ≤ q → q ≤ 2 → normalizeTemperature (some (.num q)) = .ok (some q))
    ∧ (q < 0 → normalizeTemperature (some (.num q)) = .ok (some 0))
    ∧ (2 < q → normalizeTemperature (some (.num q)) = .ok (some 2))
    ∧ (∀ v : JSNum, v.nonFinite = true →
        normalizeTemperature (some v) =
          .error (mkBadRequest "temperature 必须是有效的数字"))
    ∧ (∀ (p : GenerateTextPayload) (c : CanonicalParams) (t : ℚ),
        validateAndNormalizeParams p = .ok c → c.temperature = some t →
          0 ≤ t ∧ t ≤ 2) := by
  intro q
  refine ⟨rfl, ⟨le_max_left _ _, max_le (by norm_num) (min_le_left _ _)⟩, ?_, ?_, ?_, ?_, ?_⟩
  · intro h0 h2
    simp only [normalizeTemperature]
    rw [min_eq_right h2, max_eq_right h0]
  · intro h
    simp only [normalizeTemperature]
    rw [min_eq_right (by linarith), max_eq_left (by linarith)]
  · intro h
    simp only [normalizeTemperature]
    rw [min_eq_left (by linarith), max_eq_right (by norm_num)]
  · intro v hv
    cases v with
    | num _ => simp [JSNum.nonFinite] at hv
    | nan => rfl
    | posInf => rfl
    | negInf => rfl
  · intro p c t hok ht
    obtain ⟨pid, -, -, -, -, -, htemp, -⟩ := validate_ok_inv hok
    rcases normalizeTemperature_ok htemp with ⟨-, hnone⟩ | ⟨q', -, hval⟩
    · rw [hnone] at ht; exact absurd ht (by simp)
    · rw [hval] at ht
      obtain rfl : t = max 0 (min 2 q') := (Option.some.inj ht).symm
      exact ⟨le_max_left _ _, max_le (by norm_num) (min_le_left _ _)⟩

/-- C5 witness: temperature 5 is clamped to the upper bound 2;
`Infinity` is rejected. -/
theorem claim_c5_witness :
    (2 : ℚ) < 5 ∧ normalizeTemperature (some (.num 5)) = .ok (some 2) ∧
      normalizeTemperature (some .posInf) =
        .error (mkBadRequest "temperature 必须是有效的数字") :=
  ⟨by norm_num, (claim_c5_temperature_clamped 5).2.2.2.2.1 (by norm_num),
    (claim_c5_temperature_clamped 0).2.2.2.2.2.1 .posInf rfl⟩

/-- C7: for every known provider and every payload whose model is
non-empty after trimming but not a member of the provider's valid model
set, normalization fails with a BadRequest whose message enumerates the
complete valid model set of that provider (every valid model id occurs
in the message). -/
theorem claim_c7_invalid_model_lists_models :
    ∀ (pid : ProviderId) (p : GenerateTextPayload),
      p.provider = providerIdString pid →
      (jsTrim p.model == "") = false →
      (getModelsByProvider pid).contains p.model = false →
      validateAndNormalizeParams p =
        .error (mkBadRequest (modelNotValidMsg p.model pid))
      ∧ ∀ m ∈ getModelsByProvider pid,
          strIncludes (modelNotValidMsg p.model pid) m = true := by
  intro pid p hprov hm hcont
  constructor
  · unfold validateAndNormalizeParams
    rw [hprov]
    simp only [parseProviderId_round, hm, hcont, Bool.not_false,
      Bool.false_eq_true, if_false, if_true]
  · intro m hm'
    unfold modelNotValidMsg
    apply strIncludes_append_right
    cases pid <;>
      · simp only [getModelsByProvider, List.mem_cons, List.not_mem_nil,
          or_false] at hm'
        rcases hm' with rfl | rfl | rfl | rfl <;> decide

def c7wPayload : GenerateTextPayload :=
  { provider := "openai", model := "not-a-real-model", prompt := some "hi",
    system := none, temperature := none, maxTokens := none }

/-- C7 witness: an unknown OpenAI model is rejected and the message
contains each valid OpenAI model id. -/
theorem claim_c7_witness :
    validateAndNormalizeParams c7wPayload =
      .error (mkBadRequest (modelNotValidMsg "not-a-real-model" .openai)) ∧
    strIncludes (modelNotValidMsg "not-a-real-model" .openai) "gpt-4o" = true := by
  have h := claim_c7_invalid_model_lists_models .openai c7wPayload rfl
    (by decide) (by decide)
  exact ⟨h.1, h.2 "gpt-4o" (by decide)⟩

/-- C9: normalization is idempotent — feeding a successfully produced
canonical request back through `validateAndNormalizeParams` succeeds
and returns the same canonical request. -/
theorem claim_c9_normalize_idempotent :
    ∀ (p : GenerateTextPayload) (c : CanonicalParams),
      validateAndNormalizeParams p = .ok c →
      validateAndNormalizeParams (toPayload c) = .ok c := by
  intro p c hok
  obtain ⟨cp, cm, cpr, cs, ct, cmt⟩ := c
  obtain ⟨pid, hpp, hm, hcont, hps, hmax, htemp, hcp, hcm, hcprompt, hcsys⟩ :=
    validate_ok_inv hok
  simp only at hcp hcm hcprompt hcsys hmax htemp
  subst hcp hcm hcprompt hcsys
  have hmfix : jsTrim p.model = p.model := models_trim_fixed cp p.model hcont
  have h1 : parseProviderId (toPayload
      ⟨cp, jsTrim p.model, (p.prompt.map jsTrim).getD "",
        p.system.map jsTrim, ct, cmt⟩).provider = some cp := by
    show parseProviderId (providerIdString cp) = some cp
    exact parseProviderId_round cp
  have h2 : (jsTrim (toPayload
      ⟨cp, jsTrim p.model, (p.prompt.map jsTrim).getD "",
        p.system.map jsTrim, ct, cmt⟩).model == "") = false := by
    show (jsTrim (jsTrim p.model) == "") = false
    rw [jsTrim_idem]; exact hm
  have h3 : (getModelsByProvider cp).contains (toPayload
      ⟨cp, jsTrim p.model, (p.prompt.map jsTrim).getD "",
        p.system.map jsTrim, ct, cmt⟩).model = true := by
    show (getModelsByProvider cp).contains (jsTrim p.model) = true
    rw [hmfix]; exact hcont
  have h4 : (blankOpt (toPayload
      ⟨cp, jsTrim p.model, (p.prompt.map jsTrim).getD "",
        p.system.map jsTrim, ct, cmt⟩).prompt && blankOpt (toPayload
      ⟨cp, jsTrim p.model, (p.prompt.map jsTrim).getD "",
        p.system.map jsTrim, ct, cmt⟩).system) = false := by
    show (blankOpt (some ((p.prompt.map jsTrim).getD "")) &&
      blankOpt (p.system.map jsTrim)) = false
    rw [blankOpt_canonical_prompt, blankOpt_map_jsTrim]; exact hps
  have hmax' : normalizeMaxTokens (toPayload
      ⟨cp, jsTrim p.model, (p.prompt.map jsTrim).getD "",
        p.system.map jsTrim, ct, cmt⟩).maxTokens = .ok cmt := by
    show normalizeMaxTokens (cmt.map fun z => JSNum.num (z : ℚ)) = .ok cmt
    rcases normalizeMaxTokens_ok hmax with ⟨-, hnone⟩ | ⟨q, -, hsome, hlo, hhi⟩
    · rw [hnone]; rfl
    · rw [hsome]
      have hzf : (⌊|((⌊|q|⌋ : ℤ) : ℚ)|⌋ : ℤ) = ⌊|q|⌋ := by
        rw [abs_of_nonneg (by exact_mod_cast (by omega : (0:ℤ) ≤ ⌊|q|⌋))]
        exact Int.floor_intCast _
      show normalizeMaxTokens (some (.num ((⌊|q|⌋ : ℤ) : ℚ))) = .ok (some ⌊|q|⌋)
      simp only [normalizeMaxTokens, hzf]
      rw [if_neg (by omega), if_neg (by omega)]
  have htemp' : normalizeTemperature (toPayload
      ⟨cp, jsTrim p.model, (p.prompt.map jsTrim).getD "",
        p.system.map jsTrim, ct, cmt⟩).temperature = .ok ct := by
    show normalizeTemperature (ct.map JSNum.num) = .ok ct
    rcases normalizeTemperature_ok htemp with ⟨-, hnone⟩ | ⟨q, -, hsome⟩
    · rw [hnone]; rfl
    · rw [hsome]
      show normalizeTemperature (some (.num (max 0 (min 2 q)))) =
        .ok (some (max 0 (min 2 q)))
      simp only [normalizeTemperature]
      rw [min_eq_right (max_le (by norm_num) (min_le_left _ _)),
        max_eq_right (le_max_left _ _)]
  have hfinal := validate_eval h1 h2 h3 h4 hmax' htemp'
  rw [hfinal]
  congr 2
  · show jsTrim (jsTrim p.model) = jsTrim p.model
    exact jsTrim_idem p.model
  · show ((some ((p.prompt.map jsTrim).getD "")).map jsTrim).getD "" =
      (p.prompt.map jsTrim).getD ""
    cases p.prompt with
    | none => rfl
    | some s => simp [jsTrim_idem]
  · show (p.system.map jsTrim).map jsTrim = p.system.map jsTrim
    cases p.system with
    | none => rfl
    | some s => simp [jsTrim_idem]

def c9wPayload : GenerateTextPayload :=
  { provider := "openai", model := "gpt-4o", prompt := some " hi ",
    system := some "sys ", temperature := none, maxTokens := none }

def c9wCanon : CanonicalParams :=
  { providerId := .openai, model := "gpt-4o", prompt := "hi",
    system := some "sys", temperature := none, maxTokens := none }

/-- C9 witness: a concrete request normalizes to a canonical form, and
re-normalizing that canonical form returns it unchanged. -/
theorem claim_c9_witness :
    validateAndNormalizeParams c9wPayload = .ok c9wCanon ∧
      validateAndNormalizeParams (toPayload c9wCanon) = .ok c9wCanon :=
  ⟨by decide, claim_c9_normalize_idempotent c9wPayload c9wCanon (by decide)⟩

/-- The C1 counterexample input: a 403-status error whose message also
matches the 401 predicate (contains "Invalid") and the 429 predicate
(contains "quota"). -/
def c1CexError : RawError :=
  { status := some 403, message := some "quota: Invalid API key" }

/-- C1 counterexample: an error satisfying both the 403 predicate and
the 401 predicate need not classify as Forbidden — when it also matches
the earlier 429/rate-limit predicate, the chain yields RateLimited. -/
theorem claim_c1_counterexample :
    isForbiddenError c1CexError = true ∧
    isUnauthorizedError c1CexError = true ∧
    (classifyError .openai c1CexError).category = .rateLimited ∧
    (classifyError .openai c1CexError).category ≠ .forbiddenLeaked ∧
    (classifyError .openai c1CexError).category ≠ .forbiddenOther ∧
    (classifyError .openai c1CexError).category ≠ .unauthorized := by
  refine ⟨by decide, by decide, ?_, ?_, ?_, ?_⟩ <;>
    · show _
      decide

/-- C1 (amended): for every raw error satisfying both the
403/permission predicate and the 401/auth predicate, the classification
chain never yields Unauthorized (the 403 check precedes the 401 check
and first match wins); and when additionally none of the earlier
predicates (parameter-error, 402/balance, 429/rate-limit) is satisfied,
it yields Forbidden-Leaked if leak phrasing is present in the combined
message and Forbidden-Other otherwise. -/
theorem claim_c1_forbidden_precedes_unauthorized :
    ∀ (pid : ProviderId) (e : RawError),
      isForbiddenError e = true → isUnauthorizedError e = true →
      (classifyError pid e).category ≠ .unauthorized ∧
      (isParamError e = false → isBalanceError e = false →
        isRateLimitError e = false →
        (classifyError pid e).category =
          (if strIncludes (combinedMessage e) "leaked" then .forbiddenLeaked
           else .forbiddenOther)) := by
  intro pid e hf _hu
  constructor
  · unfold classifyError
    by_cases hp : isParamError e = true
    · rw [if_pos hp]; simp [mkBadRequest]
    · rw [if_neg hp]
      by_cases hb : isBalanceError e = true
      · rw [if_pos hb]; simp
      · rw [if_neg hb]
        by_cases hr : isRateLimitError e = true
        · rw [if_pos hr]; simp
        · rw [if_neg hr, if_pos hf]
          split <;> simp
  · intro hp hb hr
    unfold classifyError
    rw [if_neg (by simp [hp]), if_neg (by simp [hb]), if_neg (by simp [hr]),
      if_pos hf]
    split <;> rfl

/-- The C1 witness input: 403 status together with "Invalid API key"
phrasing, matching both the 403 and 401 predicates and none of the
earlier ones. -/
def c1wError : RawError :=
  { status := some 403, message := some "Invalid API key" }

/-- C1 witness: the 403 + "Invalid API key" error classifies as
Forbidden-Other, not Unauthorized. -/
theorem claim_c1_witness :
    isForbiddenError c1wError = true ∧ isUnauthorizedError c1wError = true ∧
    (classifyError .openai c1wError).category ≠ .unauthorized ∧
    (classifyError .openai c1wError).category = .forbiddenOther := by
  have h := claim_c1_forbidden_precedes_unauthorized .openai c1wError
    (by decide) (by decide)
  refine ⟨by decide, by decide, h.1, ?_⟩
  have h2 := h.2 (by decide) (by decide) (by decide)
  rw [h2]
  decide

/-- A RateLimited classification pins down which guards fired. -/
lemma classify_rateLimited_inv {pid : ProviderId} {e : RawError}
    (hcat : (classifyError pid e).category = .rateLimited) :
    isParamError e = false ∧ isBalanceError e = false ∧
      isRateLimitError e = true := by
  unfold classifyError at hcat
  by_cases hp : isParamError e = true
  · rw [if_pos hp] at hcat; exact absurd hcat (by simp [mkBadRequest])
  · by_cases hb : isBalanceError e = true
    · rw [if_neg hp, if_pos hb] at hcat; exact absurd hcat (by simp)
    · by_cases hr : isRateLimitError e = true
      · exact ⟨by simpa using hp, by simpa using hb, hr⟩
      · exfalso
        rw [if_neg hp, if_neg hb, if_neg hr] at hcat
        by_cases hf : isForbiddenError e = true
        · rw [if_pos hf] at hcat
          split at hcat <;> simp at hcat
        · rw [if_neg hf] at hcat
          by_cases hu : isUnauthorizedError e = true
          · rw [if_pos hu] at hcat; simp at hcat
          · rw [if_neg hu] at hcat; simp [mkInternal] at hcat

/-- C8: for every upstream error classified as RateLimited, the
`retryAfterSeconds` field is the retry-delay hint extracted from the
raw (combined) message — when the `Please retry in N seconds` pattern
matches and its numeric token parses to `q`, the field is `⌈q⌉`; when
the pattern does not match (or the token fails to parse, which is falsy
exactly like the absent case), the field is absent. -/
theorem claim_c8_retry_after_extraction :
    ∀ (pid : ProviderId) (e : RawError),
      (classifyError pid e).category = .rateLimited →
      (findRetryToken (combinedMessage e).data = none →
        (classifyError pid e).retryAfterSeconds = none)
      ∧ ∀ tok, findRetryToken (combinedMessage e).data = some tok →
          (parseFloatQ tok = none →
            (classifyError pid e).retryAfterSeconds = none)
          ∧ ∀ q : ℚ, parseFloatQ tok = some q →
              (classifyError pid e).retryAfterSeconds = some ⌈q⌉ := by
  intro pid e hcat
  obtain ⟨hp, hb, hr⟩ := classify_rateLimited_inv hcat
  have hretry : (classifyError pid e).retryAfterSeconds =
      retryDelayOf (combinedMessage e) := by
    unfold classifyError
    rw [if_neg (by simp [hp]), if_neg (by simp [hb]), if_pos hr]
  refine ⟨?_, ?_⟩
  · intro hnone
    rw [hretry]; unfold retryDelayOf; rw [hnone]; rfl
  · intro tok htok
    refine ⟨?_, ?_⟩
    · intro hnoq
      rw [hretry]; unfold retryDelayOf; rw [htok]
      simp [hnoq]
    · intro q hq
      rw [hretry]; unfold retryDelayOf; rw [htok]
      simp [hq]

def c8wError : RawError :=
  { status := some 429, message := some "Rate limit exceeded. Please retry in 3s." }

/-- C8 witness: a 429 error whose message says "Please retry in 3s"
surfaces `retryAfterSeconds = 3`. -/
theorem claim_c8_witness :
    (classifyError .deepseek c8wError).category = .rateLimited ∧
    findRetryToken (combinedMessage c8wError).data = some "3".data ∧
    (classifyError .deepseek c8wError).retryAfterSeconds = some 3 := by
  have h := claim_c8_retry_after_extraction .deepseek c8wError (by decide)
  refine ⟨by decide, by decide, ?_⟩
  have hq : parseFloatQ "3".data = some ((3 : ℕ) : ℚ) := rfl
  have h3 := (h.2 "3".data (by decide)).2 ((3 : ℕ) : ℚ) hq
  rw [h3]
  simp

/-- Every emitted fragment was authorized by a cancellation check that
observed the subscriber still open. -/
lemma streamRunFrom_auth (closed : Nat → Bool) :
    ∀ (t : Nat) (chunks : List String) (out : UpOutcome),
      ∀ p ∈ streamRunFrom closed t chunks out, closed p.1 = false := by
  intro t chunks out
  induction chunks generalizing t with
  | nil =>
    intro p hp
    cases out with
    | completed =>
      simp only [streamRunFrom, finishDoneT] at hp
      split at hp
      · simp at hp
      · rename_i hc
        rw [List.mem_singleton] at hp
        subst hp
        simpa using hc
    | errored msg =>
      simp only [streamRunFrom] at hp
      split at hp
      · simp at hp
      · rename_i hc
        rw [List.mem_singleton] at hp
        subst hp
        simpa using hc
  | cons c rest ih =>
    intro p hp
    simp only [streamRunFrom] at hp
    split at hp
    · simp only [finishDoneT] at hp
      split at hp
      · simp at hp
      · rename_i hc
        rw [List.mem_singleton] at hp
        subst hp
        simpa using hc
    · rename_i hc
      rw [List.mem_cons] at hp
      rcases hp with rfl | hp
      · simpa using hc
      · exact ih (t + 1) p hp

/-- C2: once the consumer has signalled cancellation, no further
fragment is emitted. With a monotone cancellation signal (`closed`
stays `true` once `true`) that is set by check index `k`, every
fragment of the stream run — content, error, and the `[DONE]` sentinel
alike — was authorized by a check that observed the subscriber open, at
an index strictly before `k`; the signal is checked at least once per
fragment-production step. -/
theorem claim_c2_no_fragment_after_cancellation :
    ∀ (closed : Nat → Bool) (chunks : List String) (out : UpOutcome) (k : Nat),
      (∀ i j, i ≤ j → closed i = true → closed j = true) →
      closed k = true →
      ∀ p ∈ streamRunT closed chunks out, closed p.1 = false ∧ p.1 < k := by
  intro closed chunks out k hmono hk p hp
  have hfalse := streamRunFrom_auth closed 0 chunks out p hp
  refine ⟨hfalse, ?_⟩
  by_contra hlt
  push_neg at hlt
  have := hmono k p.1 hlt hk
  rw [this] at hfalse
  exact Bool.noConfusion hfalse

def c2wClosed : Nat → Bool := fun n => decide (2 ≤ n)

/-- C2 witness: with cancellation observed from check index 2 onward,
a three-chunk upstream yields only the two fragments authorized before
cancellation, and no `[DONE]` sentinel. -/
theorem claim_c2_witness :
    streamRunT c2wClosed ["a", "b", "c"] .completed =
      [(0, .content "a"), (1, .content "b")] ∧
    c2wClosed 2 = true ∧ c2wClosed 1 = false ∧ 1 < 2 := by
  have h := claim_c2_no_fragment_after_cancellation c2wClosed ["a", "b", "c"]
    .completed 2
    (fun i j hij hi => by
      simp only [c2wClosed, decide_eq_true_eq] at hi ⊢
      omega)
    (by decide) (1, .content "b") (by decide)
  exact ⟨by decide, by decide, h.1, h.2⟩

/-- With a consumer that never cancels, the fragment loop forwards
every chunk and then the single error fragment. -/
lemma streamRunFrom_never_closed (msg : String) :
    ∀ (t : Nat) (chunks : List String),
      (streamRunFrom (fun _ => false) t chunks (.errored msg)).map Prod.snd =
        chunks.map Fragment.content ++ [Fragment.errorFrag msg] := by
  intro t chunks
  induction chunks generalizing t with
  | nil => rfl
  | cons c rest ih =>
    simp only [streamRunFrom, Bool.false_eq_true, if_false, List.map_cons]
    rw [ih (t + 1)]
    rfl

/-- C3: when the upstream provider errors after producing some
fragments and the consumer keeps accepting, the stream delivers exactly
the content fragments in order followed by exactly one error fragment
(a JSON object with an `error` field): no `[DONE]` sentinel, no further
content, and no retry — the run is a single finite pass. -/
theorem claim_c3_midstream_error_one_error_fragment :
    ∀ (chunks : List String) (msg : String),
      streamRun (fun _ => false) chunks (.errored msg) =
        chunks.map Fragment.content ++ [Fragment.errorFrag msg] := by
  intro chunks msg
  unfold streamRun streamRunT
  exact streamRunFrom_never_closed msg 0 chunks

/-- C6: for every request that passes normalization but whose selected
provider's credential is absent (or empty) in the process environment,
both the synchronous and the streaming entry points fail with an
Internal error — not BadRequest — whose message cites the missing
credential configuration key; the failure surfaces at invoker creation,
after provider/model validation succeeded. -/
theorem claim_c6_missing_credential_internal :
    ∀ (env : String → Option String) (p : GenerateTextPayload)
      (c : CanonicalParams),
      validateAndNormalizeParams p = .ok c →
      jsTruthy (env (credentialEnvKey c.providerId)) = false →
      (∀ upstream, generateTextModel env upstream p =
        .error (mkInternal (missingKeyMsg c.providerId)))
      ∧ (∀ closed chunks out, generateTextStreamModel env p closed chunks out =
          .error (mkInternal (missingKeyMsg c.providerId)))
      ∧ (mkInternal (missingKeyMsg c.providerId)).category = .internal
      ∧ (mkInternal (missingKeyMsg c.providerId)).category ≠ .badRequest
      ∧ strIncludes (missingKeyMsg c.providerId)
          (credentialEnvKey c.providerId) = true := by
  intro env p c hok henv
  have hcreate : createModelProvider env c.providerId =
      .error (mkInternal (missingKeyMsg c.providerId)) := by
    unfold createModelProvider
    rw [henv]
    simp
  refine ⟨?_, ?_, rfl, by simp [mkInternal], ?_⟩
  · intro upstream
    unfold generateTextModel
    rw [hok]
    simp only [Bind.bind, Except.bind]
    rw [hcreate]
  · intro closed chunks out
    unfold generateTextStreamModel
    rw [hok]
    simp only [Bind.bind, Except.bind]
    rw [hcreate]
  · cases c.providerId <;> decide

def c6wPayload : GenerateTextPayload :=
  { provider := "deepseek", model := "deepseek-chat", prompt := some "hi",
    system := none, temperature := none, maxTokens := none }

def c6wCanon : CanonicalParams :=
  { providerId := .deepseek, model := "deepseek-chat", prompt := "hi",
    system := none, temperature := none, maxTokens := none }

def c6wEnv : String → Option String := fun _ => none

/-- C6 witness: a valid DeepSeek request with no DEEPSEEK_API_KEY
configured fails Internal on both paths, citing the key. -/
theorem claim_c6_witness :
    validateAndNormalizeParams c6wPayload = .ok c6wCanon ∧
    jsTruthy (c6wEnv (credentialEnvKey c6wCanon.providerId)) = false ∧
    generateTextModel c6wEnv (fun _ => .ok ("", none)) c6wPayload =
      .error (mkInternal (missingKeyMsg .deepseek)) ∧
    generateTextStreamModel c6wEnv c6wPayload (fun _ => false) [] .completed =
      .error (mkInternal (missingKeyMsg .deepseek)) ∧
    strIncludes (missingKeyMsg .deepseek) "DEEPSEEK_API_KEY" = true := by
  have h := claim_c6_missing_credential_internal c6wEnv c6wPayload c6wCanon
    (by decide) rfl
  exact ⟨by decide, rfl, h.1 (fun _ => .ok ("", none)),
    h.2.1 (fun _ => false) [] .completed, h.2.2.2.2⟩

/-- C10 counterexample input: a canonical request with a defined token
limit. -/
def c10Canon : CanonicalParams :=
  { providerId := .openai, model := "gpt-4o", prompt := "hi",
    system := none, temperature := none, maxTokens := some 5 }

/-- C10 counterexample: the two executors do NOT forward the token
limit under an identical key — the synchronous path sets
`maxOutputTokens` while the streaming path sets `maxTokens`, so the
built parameter objects differ whenever the limit is defined. -/
theorem claim_c10_counterexample :
    buildSyncParams c10Canon ≠ buildStreamParams c10Canon ∧
    (buildSyncParams c10Canon).maxOutputTokens = some 5 ∧
    (buildSyncParams c10Canon).maxTokens = none ∧
    (buildStreamParams c10Canon).maxTokens = some 5 ∧
    (buildStreamParams c10Canon).maxOutputTokens = none := by
  refine ⟨?_, rfl, rfl, rfl, rfl⟩
  intro h
  have := congrArg RequestParams.maxTokens h
  exact absurd this (by decide)

/-- C10 (amended): the synchronous and streaming executors build the
same provider-call parameter object — same model binding, prompt,
conditional system and temperature — except for the token-limit key:
the synchronous path forwards `maxTokens` under the `maxOutputTokens`
key while the streaming path forwards it under the `maxTokens` key. -/
theorem claim_c10_same_params_except_token_key :
    ∀ c : CanonicalParams,
      (buildSyncParams c).providerBinding = (buildStreamParams c).providerBinding
      ∧ (buildSyncParams c).model = (buildStreamParams c).model
      ∧ (buildSyncParams c).prompt = (buildStreamParams c).prompt
      ∧ (buildSyncParams c).system = (buildStreamParams c).system
      ∧ (buildSyncParams c).temperature = (buildStreamParams c).temperature
      ∧ (buildSyncParams c).maxOutputTokens = c.maxTokens
      ∧ (buildSyncParams c).maxTokens = none
      ∧ (buildStreamParams c).maxTokens = c.maxTokens
      ∧ (buildStreamParams c).maxOutputTokens = none :=
  fun _ => ⟨rfl, rfl, rfl, rfl, rfl, rfl, rfl, rfl, rfl⟩

end TpEditNest
